import Mathlib

/-
Verification of the legal-case-tracker business rules.

This file gives a shallow embedding, in Lean, of the case/task lifecycle and
performance-classification logic of the repository (src/utils/performance.py,
src/db/queries.py, src/models.py; app31.py carries identical copies of the
query-layer functions).  The relational store is modelled as explicit lists of
rows; every SQL statement of the source is translated into the corresponding
pure list operation, and each mutation function becomes a function from a
database state to a database state.  Calendar dates are integers (days since
an arbitrary epoch) and `today` is threaded explicitly wherever the source
calls `date.today()`.  Statuses are kept as raw strings, exactly as the
source compares them.
-/

namespace LegalTracker

/-- Dates are days since an arbitrary epoch; comparisons and `+ day_offset`
arithmetic mirror Python `datetime.date` ordering and `timedelta` addition. -/
abbrev Date := Int

/-- Embedding of `calculate_case_performance` (src/utils/performance.py,
lines 5-17).  Absent dates are `none`; the source's `overdue_tasks_count or 0`
guard only matters for a missing count, so the count is a plain natural
number here. -/
def calculate_case_performance (status : String) (case_due_date : Option Date)
    (completed_date : Option Date) (overdue_tasks_count : Nat) : String :=
  if status = "Completed" then
    match case_due_date, completed_date with
    | some d, some c => if c ≤ d then "Completed On Time" else "Completed Late"
    | _, _ => "Completed On Time"
  else if status = "Not Started" ∨ status = "On Hold" then
    "Pending"
  else if status = "In Progress" then
    if overdue_tasks_count > 0 then "Overdue" else "On Time"
  else
    "Pending"

/-- Embedding of `calculate_task_performance` (src/utils/performance.py,
lines 20-36).  `today` is the evaluation date. -/
def calculate_task_performance (today : Date) (status : String)
    (due_date : Option Date) (task_completed_date : Option Date) : String :=
  if status = "Completed" then
    match due_date, task_completed_date with
    | some d, some c => if c ≤ d then "Completed On Time" else "Completed Late"
    | _, _ => "Completed On Time"
  else if status = "Not Started" ∨ status = "On Hold" then
    match due_date with
    | some d => if d < today then "Overdue" else "Pending"
    | none => "Pending"
  else if status = "In Progress" then
    match due_date with
    | some d => if d < today then "Overdue" else "On Time"
    | none => "On Time"
  else
    "Pending"

/-- Row of the `tasks` table (src/models.py, class Task), restricted to the
columns the query layer reads or writes.  Timestamps are modelled at day
granularity, so `last_updated_at` stores the `today` in force at the update. -/
structure Task where
  task_id : Nat
  case_id : Nat
  task_name : String
  status : String
  due_date : Option Date
  day_offset : Option Int
  documents_required : Option String
  task_start_date : Option Date
  task_completed_date : Option Date
  last_updated_by : Option String
  last_updated_at : Option Date
  deriving Repr, DecidableEq

/-- Row of the `cases` table (src/models.py, class Case). -/
structure Case where
  case_id : Nat
  case_name : String
  status : String
  case_type : String
  start_date : Option Date
  completed_date : Option Date
  deriving Repr, DecidableEq

/-- Row of the `case_remarks` table (src/models.py, class CaseRemark). -/
structure CaseRemark where
  remark_id : Nat
  case_id : Nat
  user_name : String
  message : String
  deriving Repr, DecidableEq

/-- Row of the `task_attachments` table (src/models.py, class TaskAttachment). -/
structure TaskAttachment where
  attachment_id : Nat
  task_id : Nat
  original_filename : String
  stored_filename : String
  deriving Repr, DecidableEq

/-- Row of the `template_types` table (src/models.py, class TemplateType). -/
structure TemplateType where
  template_type_id : Nat
  type_name : String
  deriving Repr, DecidableEq

/-- Row of the `task_templates` table (src/models.py, class TaskTemplate). -/
structure TaskTemplate where
  task_template_id : Nat
  template_type_id : Nat
  task_sequence : Int
  task_name : String
  default_status : String
  day_offset : Option Int
  documents_required : Option String
  deriving Repr, DecidableEq

/-- The relational store: one list of rows per table touched by the claims.
`next_task_id` models the autoincrementing primary key of `tasks`. -/
structure DB where
  cases : List Case
  tasks : List Task
  remarks : List CaseRemark
  attachments : List TaskAttachment
  template_types : List TemplateType
  task_templates : List TaskTemplate
  next_task_id : Nat
  deriving Repr, DecidableEq

/-- SQL `MIN` over a list of values, ignoring nothing (NULLs are filtered out
by the caller before this is applied); `none` when the list is empty. -/
def sqlMin : List Date → Option Date
  | [] => none
  | d :: ds =>
    match sqlMin ds with
    | none => some d
    | some m => some (min d m)

/-- SQL `MAX` over a list of values; `none` when the list is empty. -/
def sqlMax : List Date → Option Date
  | [] => none
  | d :: ds =>
    match sqlMax ds with
    | none => some d
    | some m => some (max d m)

/-- The SELECT of `db_update_case_dates_from_tasks` (queries.py line 146):
start dates of the case's tasks whose status is 'In Progress' or 'Completed'
(SQL MIN ignores NULL start dates, hence the filterMap). -/
def startDatesOf (tasks : List Task) (case_id : Nat) : List Date :=
  (tasks.filter (fun t =>
      t.case_id == case_id && (t.status == "In Progress" || t.status == "Completed"))).filterMap
    (fun t => t.task_start_date)

/-- The SELECT COUNT of queries.py line 155 / 213: number of the case's tasks
whose status differs from 'Completed'. -/
def incompleteCount (tasks : List Task) (case_id : Nat) : Nat :=
  (tasks.filter (fun t => t.case_id == case_id && t.status != "Completed")).length

/-- The SELECT of queries.py line 160: completed dates of the case's tasks
with status 'Completed' (SQL MAX ignores NULLs). -/
def completedDatesOf (tasks : List Task) (case_id : Nat) : List Date :=
  (tasks.filter (fun t => t.case_id == case_id && t.status == "Completed")).filterMap
    (fun t => t.task_completed_date)

/-- Embedding of `db_fetch_single_case` (queries.py lines 96-107): `None` for
a falsy case id, else the row with that id if any. -/
def db_fetch_single_case (db : DB) (case_id : Nat) : Option Case :=
  if case_id = 0 then none
  else db.cases.find? (fun c => c.case_id == case_id)

/-- Effect of the UPDATE of `db_calculate_and_set_task_due_dates` on a single
task row: a task of the case with a non-null day offset gets
`due_date = start_date + day_offset`; any other row is untouched. -/
def dueRecomputeRow (case_id : Nat) (start_date : Date) (t : Task) : Task :=
  if t.case_id == case_id then
    match t.day_offset with
    | some off => { t with due_date := some (start_date + off) }
    | none => t
  else t

/-- Embedding of `db_calculate_and_set_task_due_dates` (queries.py lines
172-188). -/
def db_calculate_and_set_task_due_dates (db : DB) (case_id : Nat) (start_date : Date) : DB :=
  { db with tasks := db.tasks.map (dueRecomputeRow case_id start_date) }

/-- The SELECT of queries.py line 143: the case's current start date;
NULL both when the case row is missing and when its start date is NULL
(`scalar_one_or_none`). -/
def currentStartOf (db : DB) (case_id : Nat) : Option Date :=
  (db.cases.find? (fun c => c.case_id == case_id)).bind (fun c => c.start_date)

/-- Embedding of `db_update_case_dates_from_tasks` (queries.py lines 141-169),
the Date Propagation Engine. -/
def db_update_case_dates_from_tasks (today : Date) (db : DB) (case_id : Nat) : DB :=
  let current_case_start_date := currentStartOf db case_id
  let min_task_start_date := sqlMin (startDatesOf db.tasks case_id)
  let new_case_start_date :=
    match min_task_start_date with
    | some d => some d
    | none => current_case_start_date
  let db1 :=
    match min_task_start_date with
    | some d =>
      if some d ≠ current_case_start_date then
        db_calculate_and_set_task_due_dates db case_id d
      else db
    | none => db
  let incomplete_tasks_count := incompleteCount db1.tasks case_id
  let new_case_completed_date :=
    if incomplete_tasks_count = 0 then
      some ((sqlMax (completedDatesOf db1.tasks case_id)).getD today)
    else none
  { db1 with
    cases := db1.cases.map (fun c =>
      if c.case_id == case_id then
        { c with start_date := new_case_start_date, completed_date := new_case_completed_date }
      else c) }

/-- Embedding of `db_update_case_status_and_start_date` (queries.py lines
191-208). -/
def db_update_case_status_and_start_date (today : Date) (db : DB) (case_id : Nat)
    (status : String) : DB :=
  match db_fetch_single_case db case_id with
  | none => db
  | some case_info =>
    let should_set_initial_start_date := status = "In Progress" ∧ case_info.start_date = none
    let db1 :=
      if should_set_initial_start_date then
        let db0 := { db with
          cases := db.cases.map (fun c =>
            if c.case_id == case_id then { c with status := status, start_date := some today }
            else c) }
        db_calculate_and_set_task_due_dates db0 case_id today
      else
        { db with
          cases := db.cases.map (fun c =>
            if c.case_id == case_id then { c with status := status } else c) }
    db_update_case_dates_from_tasks today db1 case_id

/-- Embedding of `db_check_and_complete_case` (queries.py lines 211-222):
also returns the Bool the source returns. -/
def db_check_and_complete_case (today : Date) (db : DB) (case_id : Nat) : DB × Bool :=
  let incomplete_count := incompleteCount db.tasks case_id
  if incomplete_count = 0 then
    let db1 := { db with
      cases := db.cases.map (fun c =>
        if c.case_id == case_id then { c with status := "Completed" } else c) }
    (db_update_case_dates_from_tasks today db1 case_id, true)
  else (db, false)

/-- The final status computed by `db_update_task_details` (queries.py lines
244-248): a supplied completed date forces Completed; else a supplied start
date on a not-Completed status forces In Progress; else the caller's status. -/
def taskUpdateFinalStatus (status : String)
    (start_date_input completed_date_input : Option Date) : String :=
  if completed_date_input.isSome then "Completed"
  else if start_date_input.isSome ∧ status ≠ "Completed" then "In Progress"
  else status

/-- The start date persisted by `db_update_task_details` (queries.py lines
250-251): defaults to today when the final status is In Progress and no start
date was supplied. -/
def taskUpdateStart (today : Date) (status : String)
    (start_date_input completed_date_input : Option Date) : Option Date :=
  if start_date_input = none
      ∧ taskUpdateFinalStatus status start_date_input completed_date_input = "In Progress" then
    some today
  else start_date_input

/-- The completed date persisted by `db_update_task_details` (queries.py lines
253-257): a Completed final status without a supplied completed date defaults
to the previously stored one or today; a non-Completed final status clears
it.  `task_data` is the row read back at line 238. -/
def taskUpdateCompleted (today : Date) (task_data : Task) (status : String)
    (start_date_input completed_date_input : Option Date) : Option Date :=
  let final_status := taskUpdateFinalStatus status start_date_input completed_date_input
  let completed_date_for_db :=
    if final_status = "Completed" ∧ completed_date_input = none then
      some (task_data.task_completed_date.getD today)
    else completed_date_input
  if final_status ≠ "Completed" then none else completed_date_for_db

/-- Effect of the UPDATE of `db_update_task_details` (queries.py lines
259-264) on a single row of the `tasks` table. -/
def taskUpdateRow (today : Date) (task_data : Task) (task_id : Nat) (name status : String)
    (start_date_input completed_date_input new_due_date_input : Option Date)
    (updated_by_user : String) (t : Task) : Task :=
  if t.task_id == task_id then
    { t with
      task_name := name
      status := taskUpdateFinalStatus status start_date_input completed_date_input
      task_start_date := taskUpdateStart today status start_date_input completed_date_input
      task_completed_date :=
        taskUpdateCompleted today task_data status start_date_input completed_date_input
      due_date := new_due_date_input
      last_updated_by := some updated_by_user
      last_updated_at := some today }
  else t

/-- Embedding of `db_update_task_details` (queries.py lines 225-281).  The ISO
date-string inputs of the source are modelled directly as optional dates; the
result carries the new database state plus the source's return value
`(final task status, case was started automatically)`. -/
def db_update_task_details (today : Date) (db : DB) (task_id : Nat) (name status : String)
    (start_date_input completed_date_input new_due_date_input : Option Date)
    (updated_by_user : String) : DB × String × Bool :=
  match db.tasks.find? (fun t => t.task_id == task_id) with
  | none => (db, status, false)
  | some task_data =>
    let case_id := task_data.case_id
    let final_status := taskUpdateFinalStatus status start_date_input completed_date_input
    let db1 := { db with
      tasks := db.tasks.map (taskUpdateRow today task_data task_id name status
        start_date_input completed_date_input new_due_date_input updated_by_user) }
    let db2 := db_update_case_dates_from_tasks today db1 case_id
    let case_was_started_automatically : Bool :=
      match db_fetch_single_case db2 case_id with
      | some ci => ci.status == "Not Started" && ci.start_date != none
      | none => false
    let db3 :=
      if case_was_started_automatically then
        db_update_case_status_and_start_date today db2 case_id "In Progress"
      else db2
    let db4 := (db_check_and_complete_case today db3 case_id).1
    let final_task_status :=
      match db4.tasks.find? (fun t => t.task_id == task_id) with
      | some t => t.status
      | none => final_status
    (db4, final_task_status, case_was_started_automatically)

/-- Embedding of `db_delete_case` (queries.py lines 85-93): two DELETE
statements, on `tasks` and on `cases`; no other table is touched. -/
def db_delete_case (db : DB) (case_id : Nat) : DB :=
  let db1 := { db with tasks := db.tasks.filter (fun t => !(t.case_id == case_id)) }
  { db1 with cases := db1.cases.filter (fun c => !(c.case_id == case_id)) }

/-- The SELECT-JOIN of `db_populate_tasks_from_template` (queries.py lines
48-55): template tasks whose template type has the given name. -/
def matchingTemplateTasks (db : DB) (case_type : String) : List TaskTemplate :=
  db.task_templates.filter (fun tt =>
    db.template_types.any (fun ty =>
      ty.template_type_id == tt.template_type_id && ty.type_name == case_type))

/-- The `ORDER BY tt.task_sequence` of the same SELECT. -/
def orderBySequence (l : List TaskTemplate) : List TaskTemplate :=
  l.mergeSort (fun a b => a.task_sequence ≤ b.task_sequence)

/-- One row of the bulk INSERT of `db_populate_tasks_from_template` (queries.py
lines 59-73): name, default status, day offset and documents-required are
copied; due date, start date and completed date are left NULL. -/
def templateRowToTask (case_id : Nat) (tt : TaskTemplate) : Task :=
  { task_id := 0
    case_id := case_id
    task_name := tt.task_name
    status := tt.default_status
    due_date := none
    day_offset := tt.day_offset
    documents_required := tt.documents_required
    task_start_date := none
    task_completed_date := none
    last_updated_by := none
    last_updated_at := none }

/-- Autoincrement assignment of primary keys to freshly inserted task rows. -/
def assignTaskIds : Nat → List Task → List Task
  | _, [] => []
  | n, t :: ts => { t with task_id := n } :: assignTaskIds (n + 1) ts

/-- Embedding of `db_populate_tasks_from_template` (queries.py lines 45-75). -/
def db_populate_tasks_from_template (db : DB) (case_id : Nat) (case_type : String) : DB :=
  if case_type = "" then db
  else
    let template_tasks := orderBySequence (matchingTemplateTasks db case_type)
    if template_tasks = [] then db
    else
      let tasks_to_insert := template_tasks.map (templateRowToTask case_id)
      { db with
        tasks := db.tasks ++ assignTaskIds db.next_task_id tasks_to_insert
        next_task_id := db.next_task_id + tasks_to_insert.length }

/-- Two task rows that agree on every column except possibly `due_date`. -/
def EqExceptDue (s t : Task) : Prop := t = { s with due_date := t.due_date }

/-- The second task list is the first with only due dates possibly changed. -/
def TasksDueOnly (l1 l2 : List Task) : Prop := List.Forall₂ EqExceptDue l1 l2

/-- Example case row used by the concrete instances below. -/
def exCase (cid : Nat) (st : String) (sd cd : Option Date) : Case :=
  { case_id := cid, case_name := "case", status := st, case_type := "General",
    start_date := sd, completed_date := cd }

/-- Example task row used by the concrete instances below. -/
def exTask (tid cid : Nat) (st : String) (off : Option Int) (sd cd : Option Date) : Task :=
  { task_id := tid, case_id := cid, task_name := "task", status := st, due_date := none,
    day_offset := off, documents_required := none, task_start_date := sd,
    task_completed_date := cd, last_updated_by := none, last_updated_at := none }

/-- A database with no rows. -/
def emptyDB : DB :=
  { cases := [], tasks := [], remarks := [], attachments := [], template_types := [],
    task_templates := [], next_task_id := 1 }

/-- The start date the Date Propagation Engine will persist (queries.py line
150): the earliest In Progress/Completed task start date if any, else the
current case start date. -/
def newCaseStart (db : DB) (case_id : Nat) : Option Date :=
  match sqlMin (startDatesOf db.tasks case_id) with
  | some d => some d
  | none => currentStartOf db case_id

/-- The completed date the Date Propagation Engine will persist (queries.py
lines 158-163). -/
def newCaseCompleted (today : Date) (db : DB) (case_id : Nat) : Option Date :=
  if incompleteCount db.tasks case_id = 0 then
    some ((sqlMax (completedDatesOf db.tasks case_id)).getD today)
  else none

/-- Witness for C4: completing task 1 of `dbC4w` (previously In Progress with
no completed date) with an explicit completed date 97. -/
def dbC4w : DB :=
  { emptyDB with
    cases := [exCase 1 "In Progress" (some 90) none]
    tasks := [exTask 1 1 "In Progress" none (some 90) none] }

/-- Concrete database for the C7 witness: the Litigation template has two
entries, listed out of sequence order. -/
def dbC7 : DB :=
  { emptyDB with
    template_types := [{ template_type_id := 1, type_name := "Litigation" }]
    task_templates :=
      [{ task_template_id := 2, template_type_id := 1, task_sequence := 2,
         task_name := "File defence", default_status := "Not Started",
         day_offset := none, documents_required := none },
       { task_template_id := 1, template_type_id := 1, task_sequence := 1,
         task_name := "Open file", default_status := "Not Started",
         day_offset := some 3, documents_required := some "ID" }] }

/-- Concrete database for the C2 witness: case 1 has no start date; task 1 is
In Progress with start date 50; task 2 has day offset 5 and an explicit due
date 7 that the engine overwrites. -/
def dbC2 : DB :=
  { emptyDB with
    cases := [exCase 1 "Not Started" none none]
    tasks := [exTask 1 1 "In Progress" none (some 50) none,
              { exTask 2 1 "Not Started" (some 5) none none with due_date := some 7 }] }

/-- Concrete database for the C3 witness: one case, one Completed task with
completed date 95. -/
def dbC3 : DB :=
  { emptyDB with
    cases := [exCase 1 "In Progress" (some 90) none]
    tasks := [exTask 1 1 "Completed" none (some 90) (some 95)] }

/-- Concrete database refuting C3 as stated: case 1 already has a completed
date 42 on record while its only task is not Completed. -/
def dbC3b : DB :=
  { emptyDB with
    cases := [exCase 1 "Not Started" none (some 42)]
    tasks := [exTask 1 1 "Not Started" none none none] }

/-- Concrete database for C8: case 1 with task 10, a remark on case 1 and an
attachment on task 10. -/
def dbC8 : DB :=
  { emptyDB with
    cases := [exCase 1 "In Progress" (some 10) none]
    tasks := [exTask 10 1 "Not Started" none none none]
    remarks := [{ remark_id := 5, case_id := 1, user_name := "u", message := "m" }]
    attachments := [{ attachment_id := 7, task_id := 10, original_filename := "o",
                      stored_filename := "s" }] }

/-- Concrete database for the C1 witness: a Not Started case with no start
date whose single task is Not Started with day offset 3. -/
def dbC1w : DB :=
  { emptyDB with
    cases := [exCase 1 "Not Started" none none]
    tasks := [exTask 1 1 "Not Started" (some 3) none none] }

/-- Concrete database refuting C1 as stated: like `dbC1w` but with a sibling
task already In Progress whose start date 99 is one day before today = 100. -/
def dbC1x : DB :=
  { dbC1w with
    tasks := [exTask 1 1 "Not Started" (some 3) none none,
              exTask 2 1 "In Progress" none (some 99) none] }

/-- Task 1 of `dbC1w` as persisted by the C1 witness run. -/
def c1resTask : Task :=
  { exTask 1 1 "In Progress" (some 3) (some 100) none with
    due_date := some 103, last_updated_by := some "u", last_updated_at := some 100 }

/-- Case 1 of `dbC1w` as persisted by the C1 witness run. -/
def c1resCase : Case := exCase 1 "In Progress" (some 100) none

theorem eqExceptDue_refl (t : Task) : EqExceptDue t t := rfl

theorem eqExceptDue_trans {a b c : Task} (h1 : EqExceptDue a b) (h2 : EqExceptDue b c) :
    EqExceptDue a c := by
  cases a; cases b; cases c
  simp [EqExceptDue, Task.mk.injEq] at h1 h2 ⊢
  simp_all

theorem dueRecomputeRow_eqExceptDue (case_id : Nat) (sd : Date) (t : Task) :
    EqExceptDue t (dueRecomputeRow case_id sd t) := by
  unfold EqExceptDue dueRecomputeRow
  by_cases h : t.case_id == case_id <;> cases ho : t.day_offset <;>
    simp only [h, ho, if_true, if_false, Bool.false_eq_true] <;>
    first
    | rfl
    | rw [← ho]

theorem EqExceptDue.fields {s t : Task} (h : EqExceptDue s t) :
    t.task_id = s.task_id ∧ t.case_id = s.case_id ∧ t.status = s.status
    ∧ t.day_offset = s.day_offset ∧ t.task_start_date = s.task_start_date
    ∧ t.task_completed_date = s.task_completed_date := by
  rw [h]
  exact ⟨rfl, rfl, rfl, rfl, rfl, rfl⟩

theorem tasksDueOnly_refl (l : List Task) : TasksDueOnly l l := by
  induction l with
  | nil => exact List.Forall₂.nil
  | cons x xs ih => exact List.Forall₂.cons (eqExceptDue_refl x) ih

theorem tasksDueOnly_trans {l1 l2 l3 : List Task} (h1 : TasksDueOnly l1 l2)
    (h2 : TasksDueOnly l2 l3) : TasksDueOnly l1 l3 := by
  induction h1 generalizing l3 with
  | nil => cases h2; exact List.Forall₂.nil
  | cons hab h ih =>
    cases h2 with
    | cons hbc h2 => exact List.Forall₂.cons (eqExceptDue_trans hab hbc) (ih h2)

theorem tasksDueOnly_map_dueRecomputeRow (l : List Task) (case_id : Nat) (sd : Date) :
    TasksDueOnly l (l.map (dueRecomputeRow case_id sd)) := by
  induction l with
  | nil => exact List.Forall₂.nil
  | cons x xs ih => exact List.Forall₂.cons (dueRecomputeRow_eqExceptDue case_id sd x) ih

theorem exists_of_tasksDueOnly_mem {l1 l2 : List Task} (h : TasksDueOnly l1 l2) :
    ∀ t ∈ l2, ∃ s ∈ l1, EqExceptDue s t := by
  induction h with
  | nil => intro t ht; cases ht
  | cons hab h ih =>
    intro t ht
    rcases List.mem_cons.mp ht with rfl | ht
    · exact ⟨_, List.mem_cons_self _ _, hab⟩
    · rcases ih t ht with ⟨s, hs, hst⟩
      exact ⟨s, List.mem_cons_of_mem _ hs, hst⟩

/-- Filtering and projecting a mapped list is unchanged when the map preserves
the filtered and projected columns. -/
theorem filterMap_filter_map_eq {β : Type} (f : Task → Task) (p : Task → Bool)
    (g : Task → Option β) (hp : ∀ t, p (f t) = p t) (hg : ∀ t, g (f t) = g t)
    (l : List Task) :
    ((l.map f).filter p).filterMap g = (l.filter p).filterMap g := by
  induction l with
  | nil => rfl
  | cons x xs ih =>
    simp only [List.map_cons, List.filter_cons, hp]
    cases h : p x <;> simp [h, List.filterMap_cons, hg, ih]

/-- Counting a filtered mapped list is unchanged when the map preserves the
filtered columns. -/
theorem length_filter_map_eq (f : Task → Task) (p : Task → Bool)
    (hp : ∀ t, p (f t) = p t) (l : List Task) :
    ((l.map f).filter p).length = (l.filter p).length := by
  induction l with
  | nil => rfl
  | cons x xs ih =>
    simp only [List.map_cons, List.filter_cons, hp]
    cases h : p x <;> simp [h, ih]

theorem dueRecomputeRow_case_id (c : Nat) (sd : Date) (t : Task) :
    (dueRecomputeRow c sd t).case_id = t.case_id :=
  ((dueRecomputeRow_eqExceptDue c sd t).fields).2.1

theorem dueRecomputeRow_status (c : Nat) (sd : Date) (t : Task) :
    (dueRecomputeRow c sd t).status = t.status :=
  ((dueRecomputeRow_eqExceptDue c sd t).fields).2.2.1

theorem dueRecomputeRow_start (c : Nat) (sd : Date) (t : Task) :
    (dueRecomputeRow c sd t).task_start_date = t.task_start_date :=
  ((dueRecomputeRow_eqExceptDue c sd t).fields).2.2.2.2.1

theorem dueRecomputeRow_completed (c : Nat) (sd : Date) (t : Task) :
    (dueRecomputeRow c sd t).task_completed_date = t.task_completed_date :=
  ((dueRecomputeRow_eqExceptDue c sd t).fields).2.2.2.2.2

theorem dueRecomputeRow_day_offset (c : Nat) (sd : Date) (t : Task) :
    (dueRecomputeRow c sd t).day_offset = t.day_offset :=
  ((dueRecomputeRow_eqExceptDue c sd t).fields).2.2.2.1

theorem dueRecomputeRow_task_id (c : Nat) (sd : Date) (t : Task) :
    (dueRecomputeRow c sd t).task_id = t.task_id :=
  ((dueRecomputeRow_eqExceptDue c sd t).fields).1

theorem startDatesOf_map_dueRecomputeRow (l : List Task) (cid c : Nat) (sd : Date) :
    startDatesOf (l.map (dueRecomputeRow c sd)) cid = startDatesOf l cid := by
  unfold startDatesOf
  exact filterMap_filter_map_eq _ _ _
    (fun t => by rw [dueRecomputeRow_case_id, dueRecomputeRow_status])
    (fun t => by rw [dueRecomputeRow_start]) l

theorem incompleteCount_map_dueRecomputeRow (l : List Task) (cid c : Nat) (sd : Date) :
    incompleteCount (l.map (dueRecomputeRow c sd)) cid = incompleteCount l cid := by
  unfold incompleteCount
  exact length_filter_map_eq _ _
    (fun t => by rw [dueRecomputeRow_case_id, dueRecomputeRow_status]) l

theorem completedDatesOf_map_dueRecomputeRow (l : List Task) (cid c : Nat) (sd : Date) :
    completedDatesOf (l.map (dueRecomputeRow c sd)) cid = completedDatesOf l cid := by
  unfold completedDatesOf
  exact filterMap_filter_map_eq _ _ _
    (fun t => by rw [dueRecomputeRow_case_id, dueRecomputeRow_status])
    (fun t => by rw [dueRecomputeRow_completed]) l

theorem sqlMin_mem : ∀ {l : List Date} {m : Date}, sqlMin l = some m → m ∈ l := by
  intro l
  induction l with
  | nil => intro m h; cases h
  | cons x xs ih =>
    intro m h
    unfold sqlMin at h
    cases hx : sqlMin xs with
    | none =>
      simp only [hx] at h
      cases h
      exact List.mem_cons_self _ _
    | some m2 =>
      simp only [hx] at h
      have hm : min x m2 = m := by injection h
      rcases le_total x m2 with hle | hle
      · rw [min_eq_left hle] at hm
        subst hm
        exact List.mem_cons_self _ _
      · rw [min_eq_right hle] at hm
        subst hm
        exact List.mem_cons_of_mem _ (ih hx)

theorem sqlMin_eq_some {l : List Date} {a : Date} (ha : a ∈ l) (hlb : ∀ x ∈ l, a ≤ x) :
    sqlMin l = some a := by
  induction l with
  | nil => cases ha
  | cons x xs ih =>
    unfold sqlMin
    rcases List.mem_cons.mp ha with rfl | ha
    · cases hx : sqlMin xs with
      | none => simp [hx]
      | some m =>
        have hm : a ≤ m := hlb m (List.mem_cons_of_mem _ (sqlMin_mem hx))
        simp [hx, min_eq_left hm]
    · have hx : sqlMin xs = some a := ih ha (fun y hy => hlb y (List.mem_cons_of_mem _ hy))
      have hax : a ≤ x := hlb x (List.mem_cons_self _ _)
      simp [hx, min_eq_right hax]

/-- Congruence for `List.find?` under pointwise-equal predicates. -/
theorem find?_congr_fun {α : Type} {p q : α → Bool} (h : ∀ a, p a = q a) (l : List α) :
    l.find? p = l.find? q := by
  induction l with
  | nil => rfl
  | cons x xs ih => cases hq : q x <;> simp [List.find?_cons, h, hq, ih]

/-- Finding in a mapped list, for a map that preserves the searched columns. -/
theorem find?_map_eq {α : Type} {p : α → Bool} (f : α → α) (hp : ∀ t, p (f t) = p t)
    (l : List α) : (l.map f).find? p = (l.find? p).map f := by
  rw [List.find?_map]
  congr 1
  exact find?_congr_fun (fun t => hp t) l

/-- C9: updating a task id that does not exist is a silent no-op: the call
returns the caller-supplied status with a false auto-start flag and the
database is unchanged. -/
theorem C9_missing_task_noop (today : Date) (db : DB) (task_id : Nat) (name status : String)
    (start_in completed_in due_in : Option Date) (user : String)
    (h : ∀ t ∈ db.tasks, t.task_id ≠ task_id) :
    db_update_task_details today db task_id name status start_in completed_in due_in user =
      (db, status, false) := by
  have hfind : db.tasks.find? (fun t => t.task_id == task_id) = none :=
    List.find?_eq_none.mpr (by intro t ht; simpa using h t ht)
  simp [db_update_task_details, hfind]

/-- Witness for C9: the empty database, task id 1. -/
theorem C9_missing_task_noop_witness :
    db_update_task_details 0 emptyDB 1 "a name" "On Hold" none none none "user" =
      (emptyDB, "On Hold", false) :=
  C9_missing_task_noop 0 emptyDB 1 "a name" "On Hold" none none none "user"
    (by intro t ht; cases ht)

/-- C2: whenever the Date Propagation Engine finds an earliest start date `m`
among the case's tasks with status In Progress or Completed, and `m` differs
from the case's current start date, every task of the case with a non-null
day offset ends with `due_date = m + day_offset` — also tasks that already had
an explicit due date (it is overwritten). -/
theorem C2_offset_recompute_overwrites (today : Date) (db : DB) (cid : Nat) (m : Date)
    (hmin : sqlMin (startDatesOf db.tasks cid) = some m)
    (hne : some m ≠ currentStartOf db cid) :
    ∀ t' ∈ (db_update_case_dates_from_tasks today db cid).tasks, t'.case_id = cid →
      ∀ off, t'.day_offset = some off → t'.due_date = some (m + off) := by
  intro t' ht' hc off hoff
  simp only [db_update_case_dates_from_tasks, hmin, db_calculate_and_set_task_due_dates,
    ne_eq, hne, not_false_eq_true, if_true] at ht'
  rcases List.mem_map.mp ht' with ⟨s, hs, rfl⟩
  have hcs : s.case_id = cid := by rw [dueRecomputeRow_case_id] at hc; exact hc
  have hos : s.day_offset = some off := by rw [dueRecomputeRow_day_offset] at hoff; exact hoff
  simp [dueRecomputeRow, hcs, hos]

/-- Effect of the Date Propagation Engine on the `cases` table: the case's
start and completed dates are set to `newCaseStart` / `newCaseCompleted`
(the intermediate due-date recomputation touches only due dates, so the
counts and date sets it reads are those of the incoming state). -/
theorem update_case_dates_cases_eq (today : Date) (db : DB) (cid : Nat) :
    (db_update_case_dates_from_tasks today db cid).cases =
      db.cases.map (fun c =>
        if c.case_id == cid then
          { c with start_date := newCaseStart db cid,
                   completed_date := newCaseCompleted today db cid }
        else c) := by
  unfold db_update_case_dates_from_tasks newCaseStart newCaseCompleted
  cases hmin : sqlMin (startDatesOf db.tasks cid) with
  | none => simp [hmin]
  | some d =>
    by_cases hne : some d ≠ currentStartOf db cid
    · simp [hmin, hne, db_calculate_and_set_task_due_dates,
        incompleteCount_map_dueRecomputeRow, completedDatesOf_map_dueRecomputeRow]
    · simp [hmin, hne]

/-- Effect of the Date Propagation Engine on the `tasks` table: due dates are
recomputed from the earliest In Progress/Completed task start date when it
exists and differs from the current case start date; otherwise tasks are
untouched. -/
theorem update_case_dates_tasks_eq (today : Date) (db : DB) (cid : Nat) :
    (db_update_case_dates_from_tasks today db cid).tasks =
      match sqlMin (startDatesOf db.tasks cid) with
      | some d =>
        if some d ≠ currentStartOf db cid then db.tasks.map (dueRecomputeRow cid d)
        else db.tasks
      | none => db.tasks := by
  unfold db_update_case_dates_from_tasks
  cases hmin : sqlMin (startDatesOf db.tasks cid) with
  | none => simp [hmin]
  | some d =>
    by_cases hne : some d ≠ currentStartOf db cid <;>
      simp [hmin, hne, db_calculate_and_set_task_due_dates]

theorem tasksDueOnly_update_dates (today : Date) (db : DB) (cid : Nat) :
    TasksDueOnly db.tasks (db_update_case_dates_from_tasks today db cid).tasks := by
  rw [update_case_dates_tasks_eq]
  cases hmin : sqlMin (startDatesOf db.tasks cid) with
  | none => exact tasksDueOnly_refl _
  | some d =>
    dsimp only
    by_cases hne : some d ≠ currentStartOf db cid
    · rw [if_pos hne]
      exact tasksDueOnly_map_dueRecomputeRow _ _ _
    · rw [if_neg hne]
      exact tasksDueOnly_refl _

theorem tasksDueOnly_update_dates_of (today : Date) {db : DB} (cid : Nat) {l : List Task}
    (hl : TasksDueOnly l db.tasks) :
    TasksDueOnly l (db_update_case_dates_from_tasks today db cid).tasks :=
  tasksDueOnly_trans hl (tasksDueOnly_update_dates today db cid)

theorem tasksDueOnly_status_update_of (today : Date) {db : DB} (cid : Nat) (st : String)
    {l : List Task} (hl : TasksDueOnly l db.tasks) :
    TasksDueOnly l (db_update_case_status_and_start_date today db cid st).tasks := by
  unfold db_update_case_status_and_start_date
  cases hf : db_fetch_single_case db cid with
  | none => exact hl
  | some ci =>
    refine tasksDueOnly_update_dates_of today cid ?_
    split
    · exact tasksDueOnly_trans hl (tasksDueOnly_map_dueRecomputeRow db.tasks cid today)
    · exact hl

theorem tasksDueOnly_check_complete_of (today : Date) {db : DB} (cid : Nat)
    {l : List Task} (hl : TasksDueOnly l db.tasks) :
    TasksDueOnly l ((db_check_and_complete_case today db cid).1).tasks := by
  unfold db_check_and_complete_case
  by_cases h : incompleteCount db.tasks cid = 0
  · rw [if_pos h]
    exact tasksDueOnly_update_dates_of today cid hl
  · rw [if_neg h]
    exact hl

/-- The `tasks` table after the whole `db_update_task_details` pipeline is the
row-updated table with only due dates possibly changed further by the
propagation steps. -/
theorem update_task_details_shape (today : Date) (db : DB) (tid : Nat)
    (name status : String) (sIn cIn dIn : Option Date) (user : String) (t0 : Task)
    (hfind : db.tasks.find? (fun x => x.task_id == tid) = some t0) :
    TasksDueOnly
      (db.tasks.map (taskUpdateRow today t0 tid name status sIn cIn dIn user))
      (db_update_task_details today db tid name status sIn cIn dIn user).1.tasks := by
  unfold db_update_task_details
  simp only [hfind]
  split_ifs with hb
  · exact tasksDueOnly_check_complete_of today t0.case_id
      (tasksDueOnly_status_update_of today t0.case_id "In Progress"
        (tasksDueOnly_update_dates_of today t0.case_id (tasksDueOnly_refl _)))
  · exact tasksDueOnly_check_complete_of today t0.case_id
      (tasksDueOnly_update_dates_of today t0.case_id (tasksDueOnly_refl _))

theorem taskUpdate_status_iff_completed (today : Date) (task_data : Task) (status : String)
    (sIn cIn : Option Date) :
    taskUpdateFinalStatus status sIn cIn = "Completed"
      ↔ taskUpdateCompleted today task_data status sIn cIn ≠ none := by
  unfold taskUpdateFinalStatus taskUpdateCompleted
  cases cIn with
  | some c => simp [taskUpdateFinalStatus]
  | none =>
    by_cases h : sIn.isSome ∧ status ≠ "Completed"
    · simp [taskUpdateFinalStatus, h]
    · by_cases hst : status = "Completed" <;> simp [taskUpdateFinalStatus, h, hst]

/-- C4: after any `db_update_task_details` call that finds its task, every
row of the task with that id satisfies the invariant: status is Completed if
and only if the stored completed date is non-null; moreover a supplied
completed date forces status Completed with that date, and a Completed status
without a supplied completed date defaults the date to the previously stored
one or today. -/
theorem C4_completed_iff_completed_date (today : Date) (db : DB) (tid : Nat)
    (name status : String) (sIn cIn dIn : Option Date) (user : String) (t0 : Task)
    (hfind : db.tasks.find? (fun x => x.task_id == tid) = some t0) :
    ∀ t' ∈ (db_update_task_details today db tid name status sIn cIn dIn user).1.tasks,
      t'.task_id = tid →
        (t'.status = "Completed" ↔ t'.task_completed_date ≠ none)
        ∧ (∀ d, cIn = some d → t'.status = "Completed" ∧ t'.task_completed_date = some d)
        ∧ (status = "Completed" → cIn = none →
            t'.task_completed_date = some (t0.task_completed_date.getD today)) := by
  intro t' ht' hid
  rcases exists_of_tasksDueOnly_mem
    (update_task_details_shape today db tid name status sIn cIn dIn user t0 hfind) t' ht'
    with ⟨s, hs, hst⟩
  rcases List.mem_map.mp hs with ⟨u, hu, rfl⟩
  obtain ⟨hids, _, hsts, _, _, hcds⟩ := hst.fields
  by_cases hut : u.task_id == tid
  · have hrow : taskUpdateRow today t0 tid name status sIn cIn dIn user u =
        { u with
          task_name := name
          status := taskUpdateFinalStatus status sIn cIn
          task_start_date := taskUpdateStart today status sIn cIn
          task_completed_date := taskUpdateCompleted today t0 status sIn cIn
          due_date := dIn
          last_updated_by := some user
          last_updated_at := some today } := by
      unfold taskUpdateRow
      rw [if_pos hut]
    rw [hrow] at hsts hcds
    refine ⟨?_, ?_, ?_⟩
    · rw [hsts, hcds]
      exact taskUpdate_status_iff_completed today t0 status sIn cIn
    · rintro d rfl
      rw [hsts, hcds]
      constructor
      · simp [taskUpdateFinalStatus]
      · simp [taskUpdateCompleted, taskUpdateFinalStatus]
    · rintro rfl rfl
      rw [hcds]
      simp [taskUpdateCompleted, taskUpdateFinalStatus]
  · exfalso
    have hrow : taskUpdateRow today t0 tid name status sIn cIn dIn user u = u := by
      unfold taskUpdateRow
      rw [if_neg hut]
    rw [hrow] at hids
    rw [hids] at hid
    exact hut (by simpa using hid)

theorem C4_completed_iff_completed_date_witness :
    ((({ exTask 1 1 "Completed" none none (some 97) with
          last_updated_by := some "u",
          last_updated_at := some 100 } : Task).status = "Completed"
        ↔ ({ exTask 1 1 "Completed" none none (some 97) with
          last_updated_by := some "u",
          last_updated_at := some 100 } : Task).task_completed_date ≠ none)) :=
  ((C4_completed_iff_completed_date 100 dbC4w 1 "task" "In Progress" none (some 97) none "u"
      (exTask 1 1 "In Progress" none (some 90) none) (by decide))
    { exTask 1 1 "Completed" none none (some 97) with
        last_updated_by := some "u", last_updated_at := some 100 }
    (by decide) rfl).1

theorem length_assignTaskIds : ∀ (n : Nat) (l : List Task), (assignTaskIds n l).length = l.length := by
  intro n l
  induction l generalizing n with
  | nil => rfl
  | cons x xs ih => simp [assignTaskIds, ih]

theorem forall₂_assignTaskIds_copy (cid : Nat) :
    ∀ (l : List TaskTemplate) (n : Nat),
      List.Forall₂
        (fun (tt : TaskTemplate) (t : Task) =>
          t.case_id = cid ∧ t.task_name = tt.task_name ∧ t.status = tt.default_status
          ∧ t.day_offset = tt.day_offset ∧ t.documents_required = tt.documents_required
          ∧ t.due_date = none ∧ t.task_start_date = none ∧ t.task_completed_date = none)
        l (assignTaskIds n (l.map (templateRowToTask cid))) := by
  intro l
  induction l with
  | nil => intro n; exact List.Forall₂.nil
  | cons x xs ih =>
    intro n
    refine List.Forall₂.cons ?_ (ih (n + 1))
    exact ⟨rfl, rfl, rfl, rfl, rfl, rfl, rfl, rfl⟩

/-- C7: populating a new case's tasks from its template creates exactly one
task per Template Task of the matching Template Type, taken in ascending
sequence order, copying name, default status, day offset and
documents-required, with due/start/completed dates left unset; an empty case
type or a template with zero entries creates zero tasks (total function — no
error is possible). -/
theorem C7_populate_tasks_from_template (db : DB) (cid : Nat) (ctype : String) :
    (ctype = "" → db_populate_tasks_from_template db cid ctype = db)
    ∧ (matchingTemplateTasks db ctype = [] → db_populate_tasks_from_template db cid ctype = db)
    ∧ (orderBySequence (matchingTemplateTasks db ctype)).Perm (matchingTemplateTasks db ctype)
    ∧ (orderBySequence (matchingTemplateTasks db ctype)).Pairwise
        (fun a b => a.task_sequence ≤ b.task_sequence)
    ∧ (ctype ≠ "" →
        (db_populate_tasks_from_template db cid ctype).tasks =
          db.tasks ++ assignTaskIds db.next_task_id
            ((orderBySequence (matchingTemplateTasks db ctype)).map (templateRowToTask cid)))
    ∧ (assignTaskIds db.next_task_id
          ((orderBySequence (matchingTemplateTasks db ctype)).map (templateRowToTask cid))).length
        = (matchingTemplateTasks db ctype).length
    ∧ List.Forall₂
        (fun (tt : TaskTemplate) (t : Task) =>
          t.case_id = cid ∧ t.task_name = tt.task_name ∧ t.status = tt.default_status
          ∧ t.day_offset = tt.day_offset ∧ t.documents_required = tt.documents_required
          ∧ t.due_date = none ∧ t.task_start_date = none ∧ t.task_completed_date = none)
        (orderBySequence (matchingTemplateTasks db ctype))
        (assignTaskIds db.next_task_id
          ((orderBySequence (matchingTemplateTasks db ctype)).map (templateRowToTask cid))) := by
  have hperm : (orderBySequence (matchingTemplateTasks db ctype)).Perm
      (matchingTemplateTasks db ctype) := List.mergeSort_perm _ _
  refine ⟨?_, ?_, hperm, ?_, ?_, ?_, forall₂_assignTaskIds_copy cid _ _⟩
  · intro h
    simp [db_populate_tasks_from_template, h]
  · intro h
    unfold db_populate_tasks_from_template
    by_cases hc : ctype = ""
    · rw [if_pos hc]
    · rw [if_neg hc]
      have hempty : orderBySequence (matchingTemplateTasks db ctype) = [] := by
        rw [h]
        exact List.mergeSort_nil
      simp [hempty]
  · have hs : (orderBySequence (matchingTemplateTasks db ctype)).Pairwise
        (fun a b => (decide (a.task_sequence ≤ b.task_sequence)) = true) := by
      unfold orderBySequence
      exact List.sorted_mergeSort
        (fun a b c h1 h2 => by
          simp only [decide_eq_true_eq] at h1 h2 ⊢
          omega)
        (fun a b => by simpa using Int.le_total a.task_sequence b.task_sequence)
        (matchingTemplateTasks db ctype)
    exact hs.imp (fun h => of_decide_eq_true h)
  · intro hne
    unfold db_populate_tasks_from_template
    rw [if_neg hne]
    by_cases h : orderBySequence (matchingTemplateTasks db ctype) = []
    · simp [h, assignTaskIds]
    · simp [h]
  · rw [length_assignTaskIds, List.length_map]
    exact hperm.length_eq

/-- Witness for C7 at `dbC7`: empty case type and unmatched case type are
no-ops; the Litigation expansion appends the sorted, copied rows. -/
theorem C7_populate_tasks_from_template_witness :
    db_populate_tasks_from_template dbC7 5 "" = dbC7
    ∧ db_populate_tasks_from_template dbC7 5 "Conveyancing" = dbC7
    ∧ (db_populate_tasks_from_template dbC7 5 "Litigation").tasks =
        dbC7.tasks ++ assignTaskIds dbC7.next_task_id
          ((orderBySequence (matchingTemplateTasks dbC7 "Litigation")).map (templateRowToTask 5)) :=
  ⟨(C7_populate_tasks_from_template dbC7 5 "").1 rfl,
   (C7_populate_tasks_from_template dbC7 5 "Conveyancing").2.1 (by decide),
   (C7_populate_tasks_from_template dbC7 5 "Litigation").2.2.2.2.1 (by decide)⟩

/-- Witness for C2 at `dbC2`: the earliest In Progress start date is 50, the
case start date was unset, and task 2 (explicit due date 7, offset 5) ends up
with due date 50 + 5. -/
theorem C2_offset_recompute_overwrites_witness :
    ({ exTask 2 1 "Not Started" (some 5) none none with due_date := some 55 } : Task).due_date
      = some (50 + 5) :=
  C2_offset_recompute_overwrites 100 dbC2 1 50 (by decide) (by decide)
    { exTask 2 1 "Not Started" (some 5) none none with due_date := some 55 }
    (by decide) rfl 5 rfl

/-- C3 (amended): `db_check_and_complete_case` sets the case's status to
Completed and returns true exactly when the case has no non-Completed task
(vacuously with zero tasks); it then propagates dates, making the completed
date the latest completed-task date, defaulting to today; with a non-zero
count it returns false and leaves the database untouched (the completed date
is not nulled by this operation). -/
theorem C3_check_and_complete (today : Date) (db : DB) (cid : Nat) :
    ((db_check_and_complete_case today db cid).2 = true ↔ incompleteCount db.tasks cid = 0)
    ∧ (incompleteCount db.tasks cid = 0 →
        ∀ c ∈ (db_check_and_complete_case today db cid).1.cases, c.case_id = cid →
          c.status = "Completed"
          ∧ c.completed_date = some ((sqlMax (completedDatesOf db.tasks cid)).getD today))
    ∧ (incompleteCount db.tasks cid ≠ 0 →
        db_check_and_complete_case today db cid = (db, false)) := by
  refine ⟨?_, ?_, ?_⟩
  · by_cases h : incompleteCount db.tasks cid = 0 <;> simp [db_check_and_complete_case, h]
  · intro h c hc hcid
    set db1 : DB := { db with
      cases := db.cases.map (fun c =>
        if c.case_id == cid then { c with status := "Completed" } else c) } with hdb1
    have hres : (db_check_and_complete_case today db cid).1 =
        db_update_case_dates_from_tasks today db1 cid := by
      simp [db_check_and_complete_case, h, hdb1]
    rw [hres, update_case_dates_cases_eq] at hc
    have htasks : db1.tasks = db.tasks := rfl
    rcases List.mem_map.mp hc with ⟨u, hu, rfl⟩
    rcases List.mem_map.mp hu with ⟨v, hv, rfl⟩
    by_cases hvc : v.case_id = cid
    · have hb : (v.case_id == cid) = true := by simpa using hvc
      simp only [hb, if_true]
      have hcomp : newCaseCompleted today db1 cid =
          some ((sqlMax (completedDatesOf db.tasks cid)).getD today) := by
        unfold newCaseCompleted
        rw [htasks]
        simp [h]
      simp [hcomp]
    · have hb : (v.case_id == cid) = false := by simpa using hvc
      simp only [hb, Bool.false_eq_true, if_false] at hcid ⊢
      exact absurd hcid hvc
  · intro h
    simp [db_check_and_complete_case, h]

/-- Witness for C3 at the concrete database `dbC3` with today = 100. -/
theorem C3_check_and_complete_witness :
    (db_check_and_complete_case 100 dbC3 1).2 = true
    ∧ ((exCase 1 "Completed" (some 90) (some 95)).status = "Completed"
        ∧ (exCase 1 "Completed" (some 90) (some 95)).completed_date =
            some ((sqlMax (completedDatesOf dbC3.tasks 1)).getD 100)) :=
  ⟨((C3_check_and_complete 100 dbC3 1).1).mpr (by decide),
   (C3_check_and_complete 100 dbC3 1).2.1 (by decide)
     (exCase 1 "Completed" (some 90) (some 95)) (by decide) rfl⟩

/-- Counterexample to C3 as stated: with a non-zero incomplete count the
operation returns false but does NOT set the case's completed date to null —
the stale completed date 42 survives. -/
theorem C3_check_and_complete_counterexample :
    db_check_and_complete_case 100 dbC3b 1 = (dbC3b, false)
    ∧ (db_check_and_complete_case 100 dbC3b 1).1.cases.map (fun c => c.completed_date) =
        [some 42] := by
  constructor <;> decide

/-- C8 (amended): `db_delete_case` deletes every task of the case and the
case row itself, and nothing else: the remark and attachment tables are left
untouched, so remark rows referencing the case and attachment rows
referencing its tasks remain. -/
theorem C8_delete_case_cascades_tasks_only (db : DB) (cid : Nat) :
    (∀ t ∈ (db_delete_case db cid).tasks, t.case_id ≠ cid)
    ∧ (∀ c ∈ (db_delete_case db cid).cases, c.case_id ≠ cid)
    ∧ (db_delete_case db cid).remarks = db.remarks
    ∧ (db_delete_case db cid).attachments = db.attachments
    ∧ (db_delete_case db cid).tasks = db.tasks.filter (fun t => !(t.case_id == cid))
    ∧ (db_delete_case db cid).cases = db.cases.filter (fun c => !(c.case_id == cid)) := by
  refine ⟨?_, ?_, rfl, rfl, rfl, rfl⟩
  · intro t ht
    have h := (List.mem_filter.mp ht).2
    simpa using h
  · intro c hc
    have h := (List.mem_filter.mp hc).2
    simpa using h

/-- Witness for C8 (amended) at a concrete database with a second case. -/
theorem C8_delete_case_cascades_tasks_only_witness :
    (exTask 3 2 "Not Started" none none none).case_id ≠ 1
    ∧ (db_delete_case { dbC8 with
        tasks := dbC8.tasks ++ [exTask 3 2 "Not Started" none none none] } 1).remarks =
      dbC8.remarks :=
  ⟨(C8_delete_case_cascades_tasks_only { dbC8 with
      tasks := dbC8.tasks ++ [exTask 3 2 "Not Started" none none none] } 1).1
      (exTask 3 2 "Not Started" none none none) (by decide),
   (C8_delete_case_cascades_tasks_only { dbC8 with
      tasks := dbC8.tasks ++ [exTask 3 2 "Not Started" none none none] } 1).2.2.1⟩

/-- Counterexample to C8 as stated: after deleting case 1, its tasks and the
case row are gone, but the remark referencing case 1 and the attachment
referencing its task 10 both remain. -/
theorem C8_delete_case_counterexample :
    (db_delete_case dbC8 1).tasks = []
    ∧ (db_delete_case dbC8 1).cases = []
    ∧ (db_delete_case dbC8 1).remarks =
        [{ remark_id := 5, case_id := 1, user_name := "u", message := "m" }]
    ∧ (db_delete_case dbC8 1).attachments =
        [{ attachment_id := 7, task_id := 10, original_filename := "o",
           stored_filename := "s" }]
    ∧ dbC8.tasks = [exTask 10 1 "Not Started" none none none] := by
  refine ⟨?_, ?_, ?_, ?_, ?_⟩ <;> decide

/-- C1 (amended): updating a task of a Not Started case with no start date to
In Progress, supplying no dates, auto-starts the case — provided no sibling
In Progress/Completed task has a recorded start date earlier than today (the
propagation takes the MINIMUM start date, so an earlier sibling start becomes
the case start instead of today).  Then: the task's start date is today, the
case's status is In Progress with start date today, every task of the case
with a day offset gets due date today + offset, the returned flag is true and
the returned status is In Progress. -/
theorem C1_auto_start_propagation (today : Date) (db : DB) (cid tid : Nat)
    (name user : String) (t0 : Task) (c0 : Case)
    (hcid : cid ≠ 0)
    (hfindt : db.tasks.find? (fun x => x.task_id == tid) = some t0)
    (htc : t0.case_id = cid)
    (hfindc : db.cases.find? (fun x => x.case_id == cid) = some c0)
    (hcstat : c0.status = "Not Started")
    (hcstart : c0.start_date = none)
    (hsib : ∀ t' ∈ db.tasks, t'.case_id = cid → t'.task_id ≠ tid →
      (t'.status = "In Progress" ∨ t'.status = "Completed") →
      ∀ s, t'.task_start_date = some s → today ≤ s) :
    (db_update_task_details today db tid name "In Progress" none none none user).2.2 = true
    ∧ (∀ t' ∈ (db_update_task_details today db tid name "In Progress" none none none user).1.tasks,
        t'.task_id = tid → t'.task_start_date = some today)
    ∧ (∀ c' ∈ (db_update_task_details today db tid name "In Progress" none none none user).1.cases,
        c'.case_id = cid → c'.status = "In Progress" ∧ c'.start_date = some today)
    ∧ (∀ t' ∈ (db_update_task_details today db tid name "In Progress" none none none user).1.tasks,
        t'.case_id = cid → ∀ off, t'.day_offset = some off → t'.due_date = some (today + off))
    ∧ (db_update_task_details today db tid name "In Progress" none none none user).2.1
        = "In Progress" := by
  subst htc
  have h0id : (t0.task_id == tid) = true := by simpa using List.find?_some hfindt
  have ht0mem : t0 ∈ db.tasks := List.mem_of_find?_eq_some hfindt
  have hc0id : (c0.case_id == t0.case_id) = true := by simpa using List.find?_some hfindc
  set F := taskUpdateRow today t0 tid name "In Progress" none none none user with hFdef
  have hFhit : ∀ u : Task, (u.task_id == tid) = true →
      F u = { u with
        task_name := name
        status := "In Progress"
        task_start_date := some today
        task_completed_date := none
        due_date := none
        last_updated_by := some user
        last_updated_at := some today } := by
    intro u hu
    rw [hFdef]
    unfold taskUpdateRow
    rw [if_pos hu]
    have h1 : taskUpdateFinalStatus "In Progress" none none = "In Progress" := rfl
    have h2 : taskUpdateStart today "In Progress" none none = some today := rfl
    have h3 : taskUpdateCompleted today t0 "In Progress" none none = none := rfl
    rw [h1, h2, h3]
  have hFmiss : ∀ u : Task, (u.task_id == tid) = false → F u = u := by
    intro u hu
    rw [hFdef]
    unfold taskUpdateRow
    rw [if_neg (by simp [hu])]
  have hFtid : ∀ u : Task, ((F u).task_id == tid) = (u.task_id == tid) := by
    intro u
    cases hu : u.task_id == tid
    · rw [hFmiss u hu, hu]
    · rw [hFhit u hu]
      exact hu
  set db1 : DB := { db with tasks := db.tasks.map F } with hdb1def
  have hdb1tasks : db1.tasks = db.tasks.map F := rfl
  have hdb1cases : db1.cases = db.cases := rfl
  have hFt0 : F t0 = { t0 with
      task_name := name
      status := "In Progress"
      task_start_date := some today
      task_completed_date := none
      due_date := none
      last_updated_by := some user
      last_updated_at := some today } := hFhit t0 h0id
  have hstarts_mem : today ∈ startDatesOf db1.tasks t0.case_id := by
    unfold startDatesOf
    refine List.mem_filterMap.mpr ⟨F t0, List.mem_filter.mpr ⟨?_, ?_⟩, ?_⟩
    · rw [hdb1tasks]
      exact List.mem_map_of_mem F ht0mem
    · rw [hFt0]
      simp
    · rw [hFt0]
  have hstarts_lb : ∀ x ∈ startDatesOf db1.tasks t0.case_id, today ≤ x := by
    intro x hx
    unfold startDatesOf at hx
    rcases List.mem_filterMap.mp hx with ⟨a, haf, hax⟩
    rcases List.mem_filter.mp haf with ⟨ham, hap⟩
    rw [hdb1tasks] at ham
    rcases List.mem_map.mp ham with ⟨u, hu, rfl⟩
    cases hut : u.task_id == tid
    · rw [hFmiss u hut] at hax hap
      have hap2 : u.case_id = t0.case_id ∧ (u.status = "In Progress" ∨ u.status = "Completed") := by
        simpa using hap
      exact hsib u hu hap2.1 (by simpa using hut) hap2.2 x hax
    · rw [hFhit u hut] at hax
      have : some today = some x := hax
      cases this
      exact le_refl today
  have hmin1 : sqlMin (startDatesOf db1.tasks t0.case_id) = some today :=
    sqlMin_eq_some hstarts_mem hstarts_lb
  have hinc1 : incompleteCount db1.tasks t0.case_id ≠ 0 := by
    unfold incompleteCount
    have hmem : F t0 ∈ db1.tasks.filter
        (fun t => t.case_id == t0.case_id && t.status != "Completed") := by
      refine List.mem_filter.mpr ⟨?_, ?_⟩
      · rw [hdb1tasks]
        exact List.mem_map_of_mem F ht0mem
      · rw [hFt0]
        simp
    intro hzero
    rw [List.length_eq_zero] at hzero
    rw [hzero] at hmem
    exact absurd hmem (List.not_mem_nil _)
  have hcur1 : currentStartOf db1 t0.case_id = none := by
    unfold currentStartOf
    rw [hdb1cases, hfindc]
    simp [hcstart]
  set db2 := db_update_case_dates_from_tasks today db1 t0.case_id with hdb2def
  have htasks2 : db2.tasks = db1.tasks.map (dueRecomputeRow t0.case_id today) := by
    rw [hdb2def, update_case_dates_tasks_eq, hmin1]
    dsimp only
    rw [hcur1]
    rw [if_pos (Option.some_ne_none today)]
  have hnewstart1 : newCaseStart db1 t0.case_id = some today := by
    unfold newCaseStart
    rw [hmin1]
  have hnewcomp1 : newCaseCompleted today db1 t0.case_id = none := by
    unfold newCaseCompleted
    rw [if_neg hinc1]
  have hcases2 : db2.cases = db.cases.map (fun c =>
      if c.case_id == t0.case_id then
        { c with start_date := some today, completed_date := none }
      else c) := by
    rw [hdb2def, update_case_dates_cases_eq]
    simp only [hnewstart1, hnewcomp1, hdb1cases]
  have hgcase : ∀ x : Case,
      ((if x.case_id == t0.case_id then
          { x with start_date := some today, completed_date := none }
        else x).case_id == t0.case_id) = (x.case_id == t0.case_id) := by
    intro x
    by_cases h : (x.case_id == t0.case_id) = true
    · rw [if_pos h]
    · rw [if_neg h]
  have hfind2 : db2.cases.find? (fun c => c.case_id == t0.case_id) =
      some { c0 with start_date := some today, completed_date := none } := by
    rw [hcases2, find?_map_eq _ hgcase, hfindc]
    dsimp only [Option.map]
    rw [if_pos hc0id]
  have hfetch2 : db_fetch_single_case db2 t0.case_id =
      some { c0 with start_date := some today, completed_date := none } := by
    unfold db_fetch_single_case
    rw [if_neg hcid]
    exact hfind2
  have hflag : (match db_fetch_single_case db2 t0.case_id with
      | some ci => ci.status == "Not Started" && ci.start_date != none
      | none => false) = true := by
    rw [hfetch2]
    dsimp only
    rw [hcstat]
    rfl
  set db3a : DB := { db2 with cases := db2.cases.map (fun c =>
      if c.case_id == t0.case_id then { c with status := "In Progress" } else c) } with hdb3adef
  have hstatval : db_update_case_status_and_start_date today db2 t0.case_id "In Progress" =
      db_update_case_dates_from_tasks today db3a t0.case_id := by
    unfold db_update_case_status_and_start_date
    rw [hfetch2]
    dsimp only
    rw [if_neg (by simp)]
  have h3atasks : db3a.tasks = db2.tasks := rfl
  have h3acases : db3a.cases = db2.cases.map (fun c =>
      if c.case_id == t0.case_id then { c with status := "In Progress" } else c) := rfl
  have hmin3 : sqlMin (startDatesOf db3a.tasks t0.case_id) = some today := by
    rw [h3atasks, htasks2, startDatesOf_map_dueRecomputeRow]
    exact hmin1
  have hp2 : ∀ x : Case,
      ((if x.case_id == t0.case_id then { x with status := "In Progress" } else x).case_id
        == t0.case_id) = (x.case_id == t0.case_id) := by
    intro x
    by_cases h : (x.case_id == t0.case_id) = true
    · rw [if_pos h]
    · rw [if_neg h]
  have hcur3 : currentStartOf db3a t0.case_id = some today := by
    unfold currentStartOf
    rw [h3acases, find?_map_eq _ hp2, hfind2]
    dsimp only [Option.map, Option.bind]
    split <;> rfl
  have hinc3 : incompleteCount db3a.tasks t0.case_id ≠ 0 := by
    rw [h3atasks, htasks2, incompleteCount_map_dueRecomputeRow]
    exact hinc1
  set db3 := db_update_case_dates_from_tasks today db3a t0.case_id with hdb3def
  have htasks3 : db3.tasks = db2.tasks := by
    rw [hdb3def, update_case_dates_tasks_eq, hmin3]
    dsimp only
    rw [hcur3, if_neg (by simp)]
  have hnewstart3 : newCaseStart db3a t0.case_id = some today := by
    unfold newCaseStart
    rw [hmin3]
  have hnewcomp3 : newCaseCompleted today db3a t0.case_id = none := by
    unfold newCaseCompleted
    rw [if_neg hinc3]
  have hcases3 : db3.cases = db3a.cases.map (fun c =>
      if c.case_id == t0.case_id then
        { c with start_date := some today, completed_date := none }
      else c) := by
    rw [hdb3def, update_case_dates_cases_eq]
    simp only [hnewstart3, hnewcomp3]
  have hinc3' : incompleteCount db3.tasks t0.case_id ≠ 0 := by
    rw [htasks3, htasks2, incompleteCount_map_dueRecomputeRow]
    exact hinc1
  have hcheck : db_check_and_complete_case today db3 t0.case_id = (db3, false) := by
    unfold db_check_and_complete_case
    rw [if_neg hinc3']
  have hduetid : ∀ u : Task,
      ((dueRecomputeRow t0.case_id today u).task_id == tid) = (u.task_id == tid) := by
    intro u
    rw [dueRecomputeRow_task_id]
  have hfindfinal : db3.tasks.find? (fun t => t.task_id == tid) =
      some (dueRecomputeRow t0.case_id today (F t0)) := by
    rw [htasks3, htasks2, hdb1tasks, find?_map_eq _ hduetid, find?_map_eq _ hFtid, hfindt]
    rfl
  have hR : db_update_task_details today db tid name "In Progress" none none none user =
      (db3, "In Progress", true) := by
    unfold db_update_task_details
    rw [hfindt]
    dsimp only
    rw [← hFdef, ← hdb1def, ← hdb2def, hflag]
    rw [if_pos rfl]
    rw [hstatval, hcheck]
    dsimp only
    rw [hfindfinal]
    dsimp only
    rw [dueRecomputeRow_status, hFt0]
  rw [hR]
  refine ⟨rfl, ?_, ?_, ?_, rfl⟩
  · intro t' ht' hid
    dsimp only at ht'
    rw [htasks3, htasks2, hdb1tasks] at ht'
    rcases List.mem_map.mp ht' with ⟨a, ha, rfl⟩
    rcases List.mem_map.mp ha with ⟨u, hu, rfl⟩
    rw [dueRecomputeRow_task_id] at hid
    cases hut : u.task_id == tid
    · rw [hFmiss u hut] at hid
      exact absurd (by simpa using hid) (by simpa using hut)
    · rw [dueRecomputeRow_start, hFhit u hut]
  · intro c' hc' hcc
    dsimp only at hc'
    rw [hcases3, h3acases, hcases2] at hc'
    rcases List.mem_map.mp hc' with ⟨a, ha, rfl⟩
    rcases List.mem_map.mp ha with ⟨b, hb, rfl⟩
    rcases List.mem_map.mp hb with ⟨x, hx, rfl⟩
    by_cases hxc : (x.case_id == t0.case_id) = true
    · simp [hxc]
    · exfalso
      have hxc' : (x.case_id == t0.case_id) = false := by
        simpa using hxc
      simp only [hxc', Bool.false_eq_true, if_false] at hcc
      exact hxc (by simpa using hcc)
  · intro t' ht' hcc off hoff
    dsimp only at ht'
    rw [htasks3, htasks2, hdb1tasks] at ht'
    rcases List.mem_map.mp ht' with ⟨a, ha, rfl⟩
    rcases List.mem_map.mp ha with ⟨u, hu, rfl⟩
    rw [dueRecomputeRow_case_id] at hcc
    rw [dueRecomputeRow_day_offset] at hoff
    have hb : ((F u).case_id == t0.case_id) = true := by simpa using hcc
    unfold dueRecomputeRow
    rw [if_pos hb, hoff]

/-- Counterexample to C1 as stated: on `dbC1x` (case Not Started with no
start date, today = 100) updating task 1 to In Progress with no dates yields
a case start date of 99 — the sibling's earlier start — not today, and task
1's due date becomes 99 + 3 = 102, not today + 3 = 103; the auto-start flag
is still true. -/
theorem C1_auto_start_propagation_counterexample :
    dbC1x.cases.map (fun c => (c.status, c.start_date)) = [("Not Started", none)]
    ∧ (db_update_task_details 100 dbC1x 1 "task" "In Progress" none none none "u").2.2 = true
    ∧ (db_update_task_details 100 dbC1x 1 "task" "In Progress" none none none "u").1.cases.map
        (fun c => c.start_date) = [some 99]
    ∧ (db_update_task_details 100 dbC1x 1 "task" "In Progress" none none none "u").1.tasks.map
        (fun t => t.due_date) = [some 102, none]
    ∧ some (99 : Date) ≠ some (100 : Date)
    ∧ some (102 : Date) ≠ some ((100 : Date) + 3) := by
  refine ⟨?_, ?_, ?_, ?_, ?_, ?_⟩ <;> decide

/-- Witness for C1 (amended) on `dbC1w` with today = 100. -/
theorem C1_auto_start_propagation_witness :
    (db_update_task_details 100 dbC1w 1 "task" "In Progress" none none none "u").2.2 = true
    ∧ c1resTask.task_start_date = some 100
    ∧ (c1resCase.status = "In Progress" ∧ c1resCase.start_date = some 100)
    ∧ c1resTask.due_date = some (100 + 3)
    ∧ (db_update_task_details 100 dbC1w 1 "task" "In Progress" none none none "u").2.1
        = "In Progress" := by
  have h := C1_auto_start_propagation 100 dbC1w 1 1 "task" "u"
    (exTask 1 1 "Not Started" (some 3) none none) (exCase 1 "Not Started" none none)
    (by decide) (by decide) rfl (by decide) rfl rfl
    (by
      intro t' ht' hc hne hst s hs
      rw [show dbC1w.tasks = [exTask 1 1 "Not Started" (some 3) none none] from rfl] at ht'
      rcases List.mem_singleton.mp ht' with rfl
      exact absurd rfl hne)
  exact ⟨h.1, h.2.1 c1resTask (by decide) rfl, h.2.2.1 c1resCase (by decide) rfl,
         h.2.2.2.1 c1resTask (by decide) rfl 3 rfl, h.2.2.2.2⟩

/-- C5: the task Performance Classifier returns, for status Completed,
"Completed On Time" when the completed date is at most the due date or the due
date is absent, else "Completed Late"; for Not Started / On Hold, "Overdue"
exactly when a due date is present and strictly before today, else "Pending";
for In Progress, "Overdue" exactly when a due date is present and strictly
before today, else "On Time" (so a due date equal to today, or an absent due
date, yields "On Time"); and "Pending" for any other status. -/
theorem C5_task_performance_classifier (today : Date) (due completed : Option Date) :
    (due = none → calculate_task_performance today "Completed" due completed = "Completed On Time")
    ∧ (∀ d c, due = some d → completed = some c →
        calculate_task_performance today "Completed" due completed =
          if c ≤ d then "Completed On Time" else "Completed Late")
    ∧ (∀ st, st = "Not Started" ∨ st = "On Hold" →
        calculate_task_performance today st due completed =
          match due with
          | some d => if d < today then "Overdue" else "Pending"
          | none => "Pending")
    ∧ (calculate_task_performance today "In Progress" due completed =
        match due with
        | some d => if d < today then "Overdue" else "On Time"
        | none => "On Time")
    ∧ (calculate_task_performance today "In Progress" (some today) completed = "On Time")
    ∧ (∀ st, st ≠ "Completed" → st ≠ "Not Started" → st ≠ "On Hold" → st ≠ "In Progress" →
        calculate_task_performance today st due completed = "Pending") := by
  refine ⟨?_, ?_, ?_, ?_, ?_, ?_⟩
  · rintro rfl
    cases completed <;> simp [calculate_task_performance]
  · rintro d c rfl rfl
    simp [calculate_task_performance]
  · rintro st (rfl | rfl) <;> cases due <;> simp [calculate_task_performance]
  · cases due <;> simp [calculate_task_performance]
  · simp [calculate_task_performance]
  · intro st h1 h2 h3 h4
    simp [calculate_task_performance, h1, h2, h3, h4]

/-- Witness for C5 at concrete inputs (today = 100). -/
theorem C5_task_performance_classifier_witness :
    calculate_task_performance 100 "Completed" (some 50) (some 60) = "Completed Late"
    ∧ calculate_task_performance 100 "Not Started" (some 99) none = "Overdue"
    ∧ calculate_task_performance 100 "In Progress" (some 100) none = "On Time"
    ∧ calculate_task_performance 100 "Withdrawn" (some 1) none = "Pending" := by
  refine ⟨?_, ?_, ?_, ?_⟩
  · have h := (C5_task_performance_classifier 100 (some 50) (some 60)).2.1 50 60 rfl rfl
    simpa using h
  · have h := (C5_task_performance_classifier 100 (some 99) none).2.2.1 "Not Started" (Or.inl rfl)
    simpa using h
  · exact (C5_task_performance_classifier 100 (some 100) none).2.2.2.2.1
  · exact (C5_task_performance_classifier 100 (some 1) none).2.2.2.2.2 "Withdrawn"
      (by decide) (by decide) (by decide) (by decide)

/-- C6: the case Performance Classifier returns, for status Completed,
"Completed On Time" when the completed date is at most the due date or the due
date is absent, else "Completed Late"; "Pending" for Not Started / On Hold;
for In Progress, "Overdue" exactly when the overdue-task count is positive,
else "On Time"; and "Pending" for any other status. -/
theorem C6_case_performance_classifier (due completed : Option Date) (n : Nat) :
    (due = none → calculate_case_performance "Completed" due completed n = "Completed On Time")
    ∧ (∀ d c, due = some d → completed = some c →
        calculate_case_performance "Completed" due completed n =
          if c ≤ d then "Completed On Time" else "Completed Late")
    ∧ (∀ st, st = "Not Started" ∨ st = "On Hold" →
        calculate_case_performance st due completed n = "Pending")
    ∧ (calculate_case_performance "In Progress" due completed n =
        if n > 0 then "Overdue" else "On Time")
    ∧ (∀ st, st ≠ "Completed" → st ≠ "Not Started" → st ≠ "On Hold" → st ≠ "In Progress" →
        calculate_case_performance st due completed n = "Pending") := by
  refine ⟨?_, ?_, ?_, ?_, ?_⟩
  · rintro rfl
    cases completed <;> simp [calculate_case_performance]
  · rintro d c rfl rfl
    simp [calculate_case_performance]
  · rintro st (rfl | rfl) <;> simp [calculate_case_performance]
  · simp [calculate_case_performance]
  · intro st h1 h2 h3 h4
    simp [calculate_case_performance, h1, h2, h3, h4]

/-- Witness for C6 at concrete inputs. -/
theorem C6_case_performance_classifier_witness :
    calculate_case_performance "Completed" (some 70) (some 70) 0 = "Completed On Time"
    ∧ calculate_case_performance "On Hold" (some 1) none 5 = "Pending"
    ∧ calculate_case_performance "In Progress" none none 2 = "Overdue"
    ∧ calculate_case_performance "Withdrawn" none none 0 = "Pending" := by
  refine ⟨?_, ?_, ?_, ?_⟩
  · have h := (C6_case_performance_classifier (some 70) (some 70) 0).2.1 70 70 rfl rfl
    simpa using h
  · exact (C6_case_performance_classifier (some 1) none 5).2.2.1 "On Hold" (Or.inr rfl)
  · have h := (C6_case_performance_classifier none none 2).2.2.2.1
    simpa using h
  · exact (C6_case_performance_classifier none none 0).2.2.2.2 "Withdrawn"
      (by decide) (by decide) (by decide) (by decide)

/-- C10: in both classifiers, a Completed entity whose completed date is
absent is labelled "Completed On Time" regardless of the due date (present,
past, or absent): the date comparison only happens when both dates are
present. -/
theorem C10_completed_without_completed_date (today : Date) (due : Option Date) (n : Nat) :
    calculate_task_performance today "Completed" due none = "Completed On Time"
    ∧ calculate_case_performance "Completed" due none n = "Completed On Time" := by
  constructor <;> cases due <;>
    simp [calculate_task_performance, calculate_case_performance]

end LegalTracker
